import Mathlib

/-!
# Verification of the deepagents research-orchestration engine

Shallow embedding of the orchestration core of the repository:

* `src/src/agents/edges/routing.py` — `should_continue_research`, `has_new_queries`
* `src/src/utils/research_utils.py` — `check_stagnation`,
  `merge_entities_with_llm`, `merge_graph_with_llm`
* `src/src/agents/nodes/analyze.py` — `analyze_and_reflect`
* `src/src/agents/nodes/web_search.py` — `execute_web_search`
* `src/src/services/search/web_search.py` — `SearchExecutor.parallel_search`
* `src/src/agents/graph.py` — workflow edge structure

LLM-backed collaborators (Claude reflection, OpenAI entity/graph merge, the
web-search tool) are opaque request/response operations; they are modelled as
explicit oracle parameters, so every theorem quantifies over (or fixes) the
collaborator behaviour.  Python dict fields read through `.get` with a default
are modelled as `Option` fields combined with `Option.getD`.
-/

set_option maxRecDepth 8192

namespace DeepAgents

/-- A source returned by the web-search collaborator
(`WebSearchSource` in `src/src/models/search_result.py`). -/
structure WebSearchSource where
  url : String
  title : String
deriving DecidableEq, Repr

/-- Structured output of one web search
(`WebSearchOutput` in `src/src/models/search_result.py`).
`search_result` is a plain string; Python truthiness tests on it
(`if result.search_result:`) are modelled as non-emptiness. -/
structure WebSearchOutput where
  query : String
  search_result : String
  sources : List WebSearchSource
deriving DecidableEq, Repr

/-- One entry of `reflection_memory`.  In the source this is a dict produced
by `claude.extract_structured` and read back with `.get(key, default)`, so
every field is optional here and readers apply the source's defaults. -/
structure Reflection where
  analysis_summary : Option String
  should_continue : Option Bool
  reasoning : Option String
  query_strategy : Option String
deriving DecidableEq, Repr

/-- One entry of `search_memory`
(dict literal built in `execute_web_search`, `web_search.py` lines 83-88). -/
structure SearchMemoryEntry where
  query : String
  search_result : String
  sources_count : Nat
  depth : Int
deriving DecidableEq, Repr

/-- Per-iteration audit record (`SearchIterationData` in
`src/src/models/state.py`).  The logging-only fields `model_used`,
`new_entities` and the collected `sources` url/title list are not needed by
any claim and are not modelled. -/
structure SearchIterationData where
  goal : String
  queries : List String
  sources_found : Nat
  errors : List String
deriving DecidableEq, Repr

/-- Graph node (`GraphNode` in `src/src/models/search_result.py`).
`attributes : Dict[str, Any]` is modelled as an association list with opaque
string values. -/
structure GraphNode where
  id : String
  name : String
  type : String
  attributes : List (String × String)
deriving DecidableEq, Repr

/-- Graph edge (`GraphEdge` in `src/src/models/search_result.py`).
`confidence` is a score in [0,1]; no arithmetic is performed on it anywhere
in the modelled code, so it is carried as a rational. -/
structure GraphEdge where
  source : String
  target : String
  relationship : String
  confidence : Rat
  attributes : List (String × String)
deriving DecidableEq, Repr

/-- The entity graph `{"nodes": [...], "edges": [...]}`. -/
structure EntityGraph where
  nodes : List GraphNode
  edges : List GraphEdge
deriving DecidableEq, Repr

/-- The empty graph `{"nodes": [], "edges": []}`. -/
def EntityGraph.empty : EntityGraph := { nodes := [], edges := [] }

/-- Entity mapping `Dict[str, Any]` (`discovered_entities`): association list
from entity key to opaque metadata. -/
abbrev EntityDict := List (String × String)

/-- Structured output of the entity-merge LLM collaborator
(`EntityMergeOutput` in `src/src/utils/research_utils.py`). -/
structure EntityMergeOutput where
  merged_entities : EntityDict
  entities_extracted : List String
deriving DecidableEq, Repr

/-- Structured output of the graph-merge LLM collaborator
(`GraphMergeOutput` in `src/src/utils/research_utils.py`).
`merged_graph` is a `Dict[str, Any]` in the source; `none` models the falsy
empty dict `{}` (the branch `output.merged_graph if output.merged_graph else
existing_graph`). -/
structure GraphMergeOutput where
  merged_graph : Option EntityGraph
  nodes_added : Int
  edges_added : Int
  nodes_merged : Int
deriving DecidableEq, Repr

/-- The slice of `AgentState` (`src/src/models/state.py`) touched by the
modelled nodes and routing functions.  Fields used only by logging, report
synthesis or LangGraph plumbing (`start_time`, `extraction_count`,
`messages`, `risk_indicators`, `key_entities`, `subject_context`) are not
modelled; no modelled code path reads or writes them. -/
structure AgentState where
  session_id : String
  subject : String
  current_depth : Int
  max_depth : Int
  queries_executed : List String
  pending_queries : List String
  should_continue : Bool
  termination_reason : Option String
  search_count : Int
  error_count : Int
  iteration_count : Int
  search_iterations : List SearchIterationData
  search_memory : List SearchMemoryEntry
  reflection_memory : List Reflection
  discovered_entities : EntityDict
  entity_graph : EntityGraph
deriving DecidableEq, Repr

/-! ## String containment (Python's `in` on strings) -/

/-- Predicate `charsContain sub l` holds when `sub` occurs contiguously inside `l`. -/
def charsContain (sub : List Char) : List Char → Bool
  | [] => sub.isEmpty
  | c :: t => sub.isPrefixOf (c :: t) || charsContain sub t

/-- Function `strContains s sub` models Python's `sub in s`. -/
def strContains (s sub : String) : Bool :=
  charsContain sub.data s.data

/-- Python's `str.lower()`, character by character.  Extensionally equal to
`String.toLower` (both map `Char.toLower` over the characters). -/
def strToLower (s : String) : String :=
  String.mk (s.data.map Char.toLower)

/-! ## Stagnation detector (`check_stagnation`, `research_utils.py` 268-324) -/

/-- The fixed no-progress phrases (`stagnation_indicators` list in
`check_stagnation`). -/
def stagnation_indicators : List String :=
  [ "no new entities"
  , "no significant findings"
  , "limited new information"
  , "no new information"
  , "entities discovered: none"
  , "entities discovered:\nnone"
  , "nothing new discovered" ]

/-- The loop body of `check_stagnation`: a reflection is counted as stagnant
when its lower-cased `analysis_summary` contains a stagnation indicator or
has fewer than 200 characters. -/
def isStagnantReflection (r : Reflection) : Bool :=
  let analysis := strToLower (r.analysis_summary.getD "")
  stagnation_indicators.any (fun ind => strContains analysis ind)
    || analysis.length < 200

/-- Model of `check_stagnation(reflection_memory, n_iterations)`
(`research_utils.py` lines 268-324).  The `n_iterations is None` branch
substitutes the configured window size before the call; callers here always
pass the value explicitly. -/
def check_stagnation (reflection_memory : List Reflection)
    (n_iterations : Int) : Bool :=
  if reflection_memory.isEmpty || n_iterations ≤ 0 then false
  else if (reflection_memory.length : Int) < n_iterations then false
  else
    let recent := reflection_memory.drop
      (reflection_memory.length - n_iterations.toNat)
    let stagnant_count := (recent.filter isStagnantReflection).length
    decide ((n_iterations : Int) ≤ (stagnant_count : Int))

/-! ## Routing (`src/src/agents/edges/routing.py`) -/

/-- Model of `should_continue_research(state)` (`routing.py` lines 9-81), returning
the route string together with the updated state (the source mutates
`state["termination_reason"]` in place).  `stagnation_check_iterations` is
the ambient configured window size (`settings.stagnation_check_iterations`,
validated to 1..5, default 2). -/
def should_continue_research (stagnation_check_iterations : Int)
    (state : AgentState) : String × AgentState :=
  if state.current_depth ≥ state.max_depth then
    ("finalize", { state with termination_reason := some "max_depth_reached" })
  else
    let stopRecommended :=
      match state.reflection_memory.getLast? with
      | some latest => !(latest.should_continue.getD true)
      | none => false
    if stopRecommended then
      ("finalize",
        { state with termination_reason := some "reflection_recommended_stop" })
    else if check_stagnation state.reflection_memory
        stagnation_check_iterations then
      ("finalize",
        { state with termination_reason := some "stagnation_detected" })
    else
      ("continue_search", state)

/-- Model of `has_new_queries(state)` (`routing.py` lines 84-109). -/
def has_new_queries (state : AgentState) : String × AgentState :=
  if state.pending_queries.isEmpty then
    ("synthesize",
      { state with termination_reason := some "no_additional_queries" })
  else
    ("search_more", state)

/-! ## Workflow graph structure (`src/src/agents/graph.py`) -/

/-- The nodes added by `_add_workflow_nodes`, plus LangGraph's `END`.  The
first node is called `initialize` in the source; the Lean constructor name
carries a suffix because the bare word is a Lean keyword. -/
inductive WorkflowNode where
  | initializeNode
  | generate_queries
  | execute_search
  | analyze_and_reflect
  | map_connections
  | synthesize_report
  | END
deriving DecidableEq, Repr

/-- The edge structure added by `_add_workflow_edges` (`graph.py` lines
65-91): every edge is unconditional except the conditional edges out of
`analyze_and_reflect`, which map the string returned by
`should_continue_research` through the dict
`{"continue_search": "generate_queries", "finalize": "map_connections"}`.
`none` means no edge is defined for that route string.  Note that
`generate_queries → execute_search` is an unconditional `add_edge`; the
routing function `has_new_queries` is not referenced anywhere in
`graph.py`. -/
def nextNode : WorkflowNode → String → Option WorkflowNode
  | .initializeNode, _ => some .generate_queries
  | .generate_queries, _ => some .execute_search
  | .execute_search, _ => some .analyze_and_reflect
  | .analyze_and_reflect, route =>
      if route = "continue_search" then some .generate_queries
      else if route = "finalize" then some .map_connections
      else none
  | .map_connections, _ => some .synthesize_report
  | .synthesize_report, _ => some .END
  | .END, _ => none

/-! ## Merge engine (`src/src/utils/research_utils.py`)

Both merge operations hand the actual merging to an OpenAI agent; the
surrounding Python only guards trivial inputs and falls back to the existing
data when the LLM returns a falsy result.  The LLM is modelled as an
explicit oracle argument mapping the prompt inputs to a structured output. -/

/-- Model of `merge_entities_with_llm(existing_entities, analysis_summary, session_id)`
(`research_utils.py` lines 75-156).  The oracle receives exactly the data
interpolated into the prompt (existing entities and the analysis summary).
A `None` existing dict and an empty dict coincide in this model (`[]`), so
the source's `existing_entities or {}` branch is the identity. -/
def merge_entities_with_llm
    (oracle : EntityDict → String → EntityMergeOutput)
    (existing_entities : EntityDict) (analysis_summary : String) : EntityDict :=
  if analysis_summary.isEmpty then existing_entities
  else
    let output := oracle existing_entities analysis_summary
    if output.merged_entities.isEmpty then existing_entities
    else output.merged_entities

/-- Model of `merge_graph_with_llm(existing_graph, new_nodes, new_edges, session_id)`
(`research_utils.py` lines 169-265).  `existing_graph = none` models a falsy
input dict (`None` or `{}`); the source normalizes it to
`{"nodes": [], "edges": []}` and likewise inserts missing `nodes`/`edges`
keys, which the `EntityGraph` structure makes implicit.  The oracle receives
the normalized existing graph and the new nodes/edges, exactly the data
interpolated into the prompt. -/
def merge_graph_with_llm
    (oracle : EntityGraph → List GraphNode → List GraphEdge → GraphMergeOutput)
    (existing_graph : Option EntityGraph)
    (new_nodes : List GraphNode) (new_edges : List GraphEdge) : EntityGraph :=
  let g := existing_graph.getD EntityGraph.empty
  if new_nodes.isEmpty && new_edges.isEmpty then g
  else
    let output := oracle g new_nodes new_edges
    match output.merged_graph with
    | some merged => merged
    | none => g

/-! ## Analysis node (`src/src/agents/nodes/analyze.py`) -/

/-- Model of `analyze_and_reflect(state)` (`analyze.py` lines 12-91).  The Claude
reflection call (`claude.extract_structured` on the reflection prompt built
from the state) is the oracle `claudeOracle`; the OpenAI entity merger
inside `merge_entities_with_llm` is `entityOracle`. -/
def analyze_and_reflect
    (claudeOracle : AgentState → Reflection)
    (entityOracle : EntityDict → String → EntityMergeOutput)
    (state : AgentState) : AgentState :=
  if state.search_memory.isEmpty then state
  else
    let reflection_result := claudeOracle state
    let merged_entities := merge_entities_with_llm entityOracle
      state.discovered_entities (reflection_result.analysis_summary.getD "")
    { state with
      reflection_memory := state.reflection_memory ++ [reflection_result]
      discovered_entities := merged_entities
      should_continue := reflection_result.should_continue.getD true
      current_depth := state.current_depth + 1 }

/-! ## Bounded concurrent executor
(`src/src/services/search/web_search.py`, `src/src/agents/nodes/web_search.py`)

`SearchExecutor.parallel_search` awaits `asyncio.gather(*tasks)` **without**
`return_exceptions=True`: if any task raises, the exception propagates to the
awaiter of `gather` and the assembled result list is discarded.  The
caller-visible input/output behaviour is therefore that of `mapM` in the
`Except` monad over a per-query search oracle: either every query succeeded
and the results are returned positionally, or some query failed and only an
exception reaches the caller. -/

/-- Caller-visible behaviour of `parallel_search(queries, ...)`
(`web_search.py` lines 56-85); `search` is the per-query collaborator
(`SearchExecutor.search`, one `Except.error` per query that raises after its
retries are exhausted). -/
def parallel_search (search : String → Except String WebSearchOutput)
    (queries : List String) : Except String (List WebSearchOutput) :=
  queries.mapM search

/-- The audit record built at the top of `execute_web_search`
(`nodes/web_search.py` lines 40-47). -/
def initialIterationData (current_depth : Int) (batch : List String) :
    SearchIterationData :=
  { goal := "Search iteration at depth " ++ toString current_depth
    queries := batch
    sources_found := 0
    errors := [] }

/-- Model of `execute_web_search(state)` (`src/src/agents/nodes/web_search.py` lines
12-128).  `maxq` is the configured `settings.max_queries_per_depth`
(validated to 1..20, default 5).  On success the node appends one
search-memory entry per result whose `search_result` text is truthy,
extends `queries_executed`, drops the executed batch from
`pending_queries` and bumps `search_count`; if the gather raised, the
`except` block records the error in the iteration audit data and bumps
`error_count`, leaving every other field untouched.  In both cases the
iteration audit record is appended and the state is returned. -/
def execute_web_search (search : String → Except String WebSearchOutput)
    (maxq : Nat) (state : AgentState) : AgentState :=
  if state.pending_queries.isEmpty then state
  else
    let queries := state.pending_queries
    let batch := queries.take maxq
    let iter0 := initialIterationData state.current_depth batch
    match parallel_search search batch with
    | Except.ok results =>
        let pairs := batch.zip results
        let newMemories :=
          (pairs.filter (fun p => !p.2.search_result.isEmpty)).map
            (fun p =>
              { query := p.1
                search_result := p.2.search_result
                sources_count := p.2.sources.length
                depth := state.current_depth })
        let total_sources := (pairs.map (fun p => p.2.sources.length)).sum
        { state with
          search_memory := state.search_memory ++ newMemories
          queries_executed := state.queries_executed ++ batch
          pending_queries := queries.drop maxq
          search_count := state.search_count + results.length
          search_iterations := state.search_iterations ++
            [{ iter0 with sources_found := total_sources }] }
    | Except.error e =>
        { state with
          error_count := state.error_count + 1
          search_iterations := state.search_iterations ++
            [{ iter0 with errors := [e] }] }

/-! ## Small-step semantics of the semaphore-bounded executor

`parallel_search` spawns one task per query (`tasks = [limited_search(q) for
q in queries]`) and each task brackets its search with
`async with semaphore:` where `semaphore = asyncio.Semaphore(max_concurrent)`.
The interleavings the event loop may produce are overapproximated by a
nondeterministic step relation on the per-task statuses: a task may enter the
semaphore only while fewer than `C` tasks are inside it, and a running task
may complete with the result of the external search collaborator on its own
query.  Safety properties proved over all reachable configurations therefore
cover every real scheduling. -/

/-- Status of one `limited_search` task. -/
inductive TaskStatus where
  | notStarted
  | running
  | done (result : WebSearchOutput)
deriving DecidableEq, Repr

/-- Whether a task currently holds the semaphore. -/
def TaskStatus.isRunning : TaskStatus → Bool
  | .running => true
  | _ => false

/-- A configuration of the executor: one status per spawned task, in the
order the tasks were created (i.e. query order). -/
abbrev ExecConfig := List TaskStatus

/-- Number of searches currently in flight. -/
def runningCount (cfg : ExecConfig) : Nat :=
  (cfg.filter TaskStatus.isRunning).length

/-- One scheduler step of the bounded executor with concurrency cap `C`,
per-query collaborator `search` and task list `queries`. -/
inductive ExecStep (C : Nat) (search : String → WebSearchOutput)
    (queries : List String) : ExecConfig → ExecConfig → Prop where
  | acquire (cfg : ExecConfig) (i : Nat)
      (hstat : cfg[i]? = some TaskStatus.notStarted)
      (hsem : runningCount cfg < C) :
      ExecStep C search queries cfg (cfg.set i TaskStatus.running)
  | complete (cfg : ExecConfig) (i : Nat)
      (hstat : cfg[i]? = some TaskStatus.running) :
      ExecStep C search queries cfg
        (cfg.set i (TaskStatus.done (search (queries.getD i ""))))

/-- Configurations reachable from the initial one (all tasks spawned, none
yet inside the semaphore). -/
inductive ExecReachable (C : Nat) (search : String → WebSearchOutput)
    (queries : List String) : ExecConfig → Prop where
  | init : ExecReachable C search queries
      (queries.map (fun _ => TaskStatus.notStarted))
  | step {cfg cfg' : ExecConfig} :
      ExecReachable C search queries cfg →
      ExecStep C search queries cfg cfg' →
      ExecReachable C search queries cfg'

/-- Result assembly of `asyncio.gather`: defined exactly when every task has
completed, and then returns the task results in task-creation order. -/
def gatherResults : ExecConfig → Option (List WebSearchOutput)
  | [] => some []
  | TaskStatus.done r :: rest => (gatherResults rest).map (fun rs => r :: rs)
  | _ :: _ => none

/-! ## Concrete fixtures used by witnesses and counterexamples -/

/-- A freshly initialized state (the defaults set by `initialize_session`,
`src/src/agents/nodes/initialize.py`, restricted to the modelled fields;
`max_depth` takes the configured default 4). -/
def initialState : AgentState :=
  { session_id := "session-1"
    subject := "subject"
    current_depth := 0
    max_depth := 4
    queries_executed := []
    pending_queries := []
    should_continue := true
    termination_reason := none
    search_count := 0
    error_count := 0
    iteration_count := 0
    search_iterations := []
    search_memory := []
    reflection_memory := []
    discovered_entities := []
    entity_graph := EntityGraph.empty }

/-- A stagnant reflection: contains a no-progress phrase (and is short). -/
def reflStagnant : Reflection :=
  { analysis_summary := some "No new entities found in this iteration."
    should_continue := some true
    reasoning := some "keep looking"
    query_strategy := some "broaden" }

/-- A substantive reflection: long summary, no stagnation phrase. -/
def reflSubstantive : Reflection :=
  { analysis_summary := some (String.mk (List.replicate 250 'x'))
    should_continue := some true
    reasoning := some "rich findings"
    query_strategy := some "narrow" }

/-- A reflection whose analysis step recommended stopping. -/
def reflStop : Reflection :=
  { analysis_summary := some (String.mk (List.replicate 250 'y'))
    should_continue := some false
    reasoning := some "coverage is sufficient"
    query_strategy := some "none needed" }

/-- A run model for the hard-cap property: the state observed by the routing
call right after the `i`-th completed search+analyze iteration, in a run
where every completed analysis step appends exactly one reflection and
increments `current_depth` by exactly one (the committed effects of
`analyze_and_reflect` on a non-empty `search_memory`).  `refl i` is the
reflection produced by iteration `i`. -/
def stateAfterIteration (refl : Nat → Reflection) (maxDepth : Int)
    (i : Nat) : AgentState :=
  { initialState with
    current_depth := (i : Int)
    max_depth := maxDepth
    reflection_memory := (List.range i).map refl }

/-- A stored search-memory entry, to make `analyze_and_reflect` take its
non-trivial branch. -/
def searchEntry1 : SearchMemoryEntry :=
  { query := "query-a"
    search_result := "text found"
    sources_count := 1
    depth := 0 }

/-- A state holding one search result awaiting analysis. -/
def analyzeInput : AgentState :=
  { initialState with search_memory := [searchEntry1] }

/-- A constant entity-merge collaborator response. -/
def constEntityOracle : EntityDict → String → EntityMergeOutput :=
  fun _ _ =>
    { merged_entities := [("acme corp", "organization")]
      entities_extracted := ["acme corp"] }

/-- Scenario B state: the first reflection (at depth 0) recommended a stop;
`analyze_and_reflect` has committed it and incremented the depth to 1. -/
def scenarioBState : AgentState :=
  { initialState with
    current_depth := 1
    reflection_memory := [reflStop] }

/-- The state right after a query-generation stage that produced zero
queries (`generate_search_queries` sets `pending_queries` to the generated
list and bumps `iteration_count`). -/
def emptyQueriesState : AgentState :=
  { initialState with iteration_count := 1 }

/-- Scenario D batch: 5 queries. -/
def scenarioDQueries : List String := ["q1", "q2", "q3", "q4", "q5"]

/-- Scenario D collaborator: query #3 raises a transient error on every
retry (so `SearchExecutor.search` surfaces an exception for it), every
other query succeeds. -/
def scenarioDSearch : String → Except String WebSearchOutput :=
  fun q =>
    if q = "q3" then Except.error "transient search failure"
    else Except.ok
      { query := q
        search_result := "result for " ++ q
        sources := [{ url := "https://example.com/" ++ q, title := "source" }] }

/-- Scenario D state: the 5 queries are pending. -/
def scenarioDState : AgentState :=
  { initialState with pending_queries := scenarioDQueries }

/-- A successful search collaborator used by the executor semantics. -/
def searchW : String → WebSearchOutput :=
  fun q => { query := q, search_result := "text " ++ q, sources := [] }

/-- Invariant of the bounded executor: configurations are task-per-query,
at most `C` searches run at once, and a finished task holds exactly the
collaborator result for its own query. -/
def ExecInv (C : Nat) (search : String → WebSearchOutput)
    (queries : List String) (cfg : ExecConfig) : Prop :=
  cfg.length = queries.length ∧
  runningCount cfg ≤ C ∧
  ∀ i r, cfg[i]? = some (TaskStatus.done r) → r = search (queries.getD i "")

/-- Existing node fixture for the graph-merge counterexample. -/
def nodeA : GraphNode :=
  { id := "acme corp"
    name := "Acme Corp"
    type := "organization"
    attributes := [] }

/-- An edge whose target id appears neither in the existing graph nor in
the new-node set. -/
def danglingEdge : GraphEdge :=
  { source := "acme corp"
    target := "ghost holdings"
    relationship := "subsidiary"
    confidence := (9 : Rat) / 10
    attributes := [] }

/-- A graph-merge collaborator response that keeps all nodes but omits the
dangling edge, recording nothing: a behaviour the prompt permits and the
code does not prevent. -/
def droppingOracle : EntityGraph → List GraphNode → List GraphEdge →
    GraphMergeOutput :=
  fun g nn _ =>
    { merged_graph := some { nodes := g.nodes ++ nn, edges := g.edges }
      nodes_added := nn.length
      edges_added := 0
      nodes_merged := 0 }

/-- An entity-merge collaborator response that invents a fresh key on every
call: repeated application then grows the mapping each time. -/
def duplicatingOracle : EntityDict → String → EntityMergeOutput :=
  fun existing _ =>
    { merged_entities :=
        ("entity" ++ toString existing.length, "meta") :: existing
      entities_extracted := [] }

/-! # Theorems -/

/-! ## C5: the stagnation detector -/

theorem drop_length_sub {α : Type} (l : List α) (k : Nat) (h : k ≤ l.length) :
    (l.drop (l.length - k)).length = k := by
  simp [List.length_drop]
  omega

/-- In the reachable branch (`1 ≤ n ≤ len`), `check_stagnation` computes the
comparison the source returns (`stagnant_count >= n_iterations`). -/
theorem check_stagnation_eq_count (mem : List Reflection) (n : Int)
    (hn : 1 ≤ n) (hge : n ≤ (mem.length : Int)) :
    check_stagnation mem n =
      decide (n ≤ (((mem.drop (mem.length - n.toNat)).filter
        isStagnantReflection).length : Int)) := by
  have hn0 : ¬ n ≤ 0 := by omega
  have hemp : mem.isEmpty = false := by
    cases mem with
    | nil => simp at hge; omega
    | cons a t => rfl
  have hnlt : ¬ (mem.length : Int) < n := by omega
  unfold check_stagnation
  simp [hemp, hn0, hnlt]

/-- Claim C5: For every `reflection_memory` list and window size `N ≥ 1`,
`check_stagnation` returns `false` when fewer than `N` entries exist, and
returns `true` iff all `N` trailing entries are marked stagnant (indicator
phrase in the lower-cased `analysis_summary`, or length below the 200
character threshold); a trailing entry with substantive findings forces the
result to `false`. -/
theorem check_stagnation_spec (mem : List Reflection) (n : Int) (hn : 1 ≤ n) :
    ((mem.length : Int) < n → check_stagnation mem n = false) ∧
    (n ≤ (mem.length : Int) →
      (check_stagnation mem n = true ↔
        ∀ r ∈ mem.drop (mem.length - n.toNat), isStagnantReflection r = true)) ∧
    (n ≤ (mem.length : Int) →
      ∀ r ∈ mem.drop (mem.length - n.toNat), isStagnantReflection r = false →
        check_stagnation mem n = false) := by
  have hn0 : ¬ n ≤ 0 := by omega
  refine ⟨?_, ?_, ?_⟩
  · intro hlt
    unfold check_stagnation
    by_cases hemp : mem.isEmpty
    · simp [hemp]
    · simp [hemp, hn0, hlt]
  · intro hge
    have hnlen : n.toNat ≤ mem.length := by omega
    have hlenrec : (mem.drop (mem.length - n.toNat)).length = n.toNat :=
      drop_length_sub mem n.toNat hnlen
    rw [check_stagnation_eq_count mem n hn hge, decide_eq_true_eq]
    constructor
    · intro hcount r hr
      have hflen : ((mem.drop (mem.length - n.toNat)).filter
          isStagnantReflection).length
            = (mem.drop (mem.length - n.toNat)).length := by
        have := List.length_filter_le isStagnantReflection
          (mem.drop (mem.length - n.toNat))
        omega
      exact List.filter_length_eq_length.mp hflen r hr
    · intro hall
      have hflen : ((mem.drop (mem.length - n.toNat)).filter
          isStagnantReflection).length
            = (mem.drop (mem.length - n.toNat)).length :=
        List.filter_length_eq_length.mpr hall
      omega
  · intro hge r hr hfalse
    have hnlen : n.toNat ≤ mem.length := by omega
    have hlenrec : (mem.drop (mem.length - n.toNat)).length = n.toNat :=
      drop_length_sub mem n.toNat hnlen
    rw [check_stagnation_eq_count mem n hn hge]
    apply decide_eq_false
    have hlt : ((mem.drop (mem.length - n.toNat)).filter
        isStagnantReflection).length < (mem.drop (mem.length - n.toNat)).length := by
      apply lt_of_le_of_ne (List.length_filter_le _ _)
      intro heq
      have := List.filter_length_eq_length.mp heq r hr
      simp [hfalse] at this
    omega

theorem check_stagnation_spec_witness :
    (1 : Int) ≤ 2 ∧
    check_stagnation [reflStagnant] 2 = false ∧
    check_stagnation [reflStagnant, reflStagnant] 2 = true ∧
    check_stagnation [reflStagnant, reflSubstantive] 2 = false := by
  refine ⟨by norm_num, ?_, ?_, ?_⟩
  · exact (check_stagnation_spec [reflStagnant] 2 (by norm_num)).1 (by norm_num)
  · exact ((check_stagnation_spec [reflStagnant, reflStagnant] 2
      (by norm_num)).2.1 (by norm_num)).mpr (by decide)
  · exact (check_stagnation_spec [reflStagnant, reflSubstantive] 2
      (by norm_num)).2.2 (by norm_num) reflSubstantive (by decide) (by decide)

/-! ## C2: routing priority order after the ANALYZED stage -/

/-- Claim C2: `should_continue_research` evaluates the termination criteria in
strict priority order with first match winning: (1) `current_depth >=
max_depth` finalizes with `max_depth_reached`; (2) otherwise a latest
reflection whose effective `should_continue` is false finalizes with
`reflection_recommended_stop`; (3) otherwise a positive stagnation check
finalizes with `stagnation_detected`; (4) otherwise it continues and leaves
the state untouched.  Whenever a stop fires, `termination_reason` is set to
the corresponding reason string. -/
theorem should_continue_research_priority (n : Int) (s : AgentState) :
    (s.max_depth ≤ s.current_depth →
      should_continue_research n s =
        ("finalize", { s with termination_reason := some "max_depth_reached" })) ∧
    (s.current_depth < s.max_depth →
      ∀ r, s.reflection_memory.getLast? = some r →
        r.should_continue.getD true = false →
        should_continue_research n s =
          ("finalize",
            { s with termination_reason := some "reflection_recommended_stop" })) ∧
    (s.current_depth < s.max_depth →
      (∀ r, s.reflection_memory.getLast? = some r →
        r.should_continue.getD true = true) →
      check_stagnation s.reflection_memory n = true →
      should_continue_research n s =
        ("finalize", { s with termination_reason := some "stagnation_detected" })) ∧
    (s.current_depth < s.max_depth →
      (∀ r, s.reflection_memory.getLast? = some r →
        r.should_continue.getD true = true) →
      check_stagnation s.reflection_memory n = false →
      should_continue_research n s = ("continue_search", s)) := by
  refine ⟨?_, ?_, ?_, ?_⟩
  · intro hdepth
    unfold should_continue_research
    simp [hdepth]
  · intro hdepth r hlast hstop
    have hnd : ¬ s.current_depth ≥ s.max_depth := by omega
    unfold should_continue_research
    simp [hnd, hlast, hstop]
  · intro hdepth hcont hstag
    have hnd : ¬ s.current_depth ≥ s.max_depth := by omega
    unfold should_continue_research
    cases hlast : s.reflection_memory.getLast? with
    | none => simp [hnd, hlast, hstag]
    | some r => simp [hnd, hlast, hcont r hlast, hstag]
  · intro hdepth hcont hstag
    have hnd : ¬ s.current_depth ≥ s.max_depth := by omega
    unfold should_continue_research
    cases hlast : s.reflection_memory.getLast? with
    | none => simp [hnd, hlast, hstag]
    | some r => simp [hnd, hlast, hcont r hlast, hstag]

theorem should_continue_research_priority_witness :
    should_continue_research 2 { initialState with current_depth := 4 } =
      ("finalize", { initialState with
        current_depth := 4
        termination_reason := some "max_depth_reached" }) ∧
    should_continue_research 2
        { initialState with
          current_depth := 1
          reflection_memory := [reflStop] } =
      ("finalize", { initialState with
        current_depth := 1
        reflection_memory := [reflStop]
        termination_reason := some "reflection_recommended_stop" }) ∧
    should_continue_research 2
        { initialState with
          current_depth := 1
          reflection_memory := [reflStagnant, reflStagnant] } =
      ("finalize", { initialState with
        current_depth := 1
        reflection_memory := [reflStagnant, reflStagnant]
        termination_reason := some "stagnation_detected" }) ∧
    should_continue_research 2
        { initialState with
          current_depth := 1
          reflection_memory := [reflSubstantive] } =
      ("continue_search", { initialState with
        current_depth := 1
        reflection_memory := [reflSubstantive] }) := by
  refine ⟨?_, ?_, ?_, ?_⟩
  · exact (should_continue_research_priority 2
      { initialState with current_depth := 4 }).1 (by decide)
  · exact (should_continue_research_priority 2
      { initialState with
        current_depth := 1
        reflection_memory := [reflStop] }).2.1 (by decide) reflStop
      (by decide) (by decide)
  · exact (should_continue_research_priority 2
      { initialState with
        current_depth := 1
        reflection_memory := [reflStagnant, reflStagnant] }).2.2.1 (by decide)
      (by decide) (by decide)
  · exact (should_continue_research_priority 2
      { initialState with
        current_depth := 1
        reflection_memory := [reflSubstantive] }).2.2.2 (by decide)
      (by decide) (by decide)

/-! ## C3: hard-cap termination of the research loop -/

/-- Claim C3: In every run where each completed analysis step commits its
effects and increments `current_depth` by exactly one (which is what
`analyze_and_reflect` does whenever `search_memory` is non-empty — first
conjunct), the loop reaches the finalize path within `max_depth`
search+analyze iterations for every sequence of reflection outputs; with
`max_depth = 1` the routing decision after the single search+analyze cycle
is `finalize` with `termination_reason = "max_depth_reached"`. -/
theorem research_loop_hard_cap (n : Int) (refl : Nat → Reflection)
    (maxDepth : Int) (hmd : 1 ≤ maxDepth)
    (co : AgentState → Reflection)
    (eo : EntityDict → String → EntityMergeOutput)
    (s : AgentState) (hs : s.search_memory ≠ []) :
    ((analyze_and_reflect co eo s).current_depth = s.current_depth + 1 ∧
      (analyze_and_reflect co eo s).reflection_memory
        = s.reflection_memory ++ [co s]) ∧
    (∃ i : Nat, 1 ≤ i ∧ (i : Int) ≤ maxDepth ∧
      (should_continue_research n (stateAfterIteration refl maxDepth i)).1
        = "finalize") ∧
    should_continue_research n (stateAfterIteration refl 1 1) =
      ("finalize", { stateAfterIteration refl 1 1 with
        termination_reason := some "max_depth_reached" }) := by
  have hse : s.search_memory.isEmpty = false := by
    cases hmem : s.search_memory with
    | nil => exact absurd hmem hs
    | cons a t => rfl
  refine ⟨?_, ?_, ?_⟩
  · unfold analyze_and_reflect
    simp [hse]
  · refine ⟨maxDepth.toNat, by omega, by omega, ?_⟩
    have hd : (stateAfterIteration refl maxDepth maxDepth.toNat).current_depth
        ≥ (stateAfterIteration refl maxDepth maxDepth.toNat).max_depth := by
      simp [stateAfterIteration]
    unfold should_continue_research
    simp [hd]
  · have hd : (stateAfterIteration refl 1 1).current_depth
        ≥ (stateAfterIteration refl 1 1).max_depth := by
      simp [stateAfterIteration]
    unfold should_continue_research
    simp [hd]

theorem research_loop_hard_cap_witness :
    ((analyze_and_reflect (fun _ => reflSubstantive) constEntityOracle
        analyzeInput).current_depth = analyzeInput.current_depth + 1 ∧
      (analyze_and_reflect (fun _ => reflSubstantive) constEntityOracle
        analyzeInput).reflection_memory
          = analyzeInput.reflection_memory ++ [reflSubstantive]) ∧
    should_continue_research 2
        (stateAfterIteration (fun _ => reflSubstantive) 1 1) =
      ("finalize", { stateAfterIteration (fun _ => reflSubstantive) 1 1 with
        termination_reason := some "max_depth_reached" }) :=
  ⟨(research_loop_hard_cap 2 (fun _ => reflSubstantive) 1 (by norm_num)
      (fun _ => reflSubstantive) constEntityOracle analyzeInput
      (by decide)).1,
   (research_loop_hard_cap 2 (fun _ => reflSubstantive) 1 (by norm_num)
      (fun _ => reflSubstantive) constEntityOracle analyzeInput
      (by decide)).2.2⟩

/-! ## C10: analysis is skipped entirely on empty search memory -/

/-- Claim C10: When `search_memory` is empty, `analyze_and_reflect` returns
the state unchanged — no reflection appended, `discovered_entities` and
`should_continue` untouched, `current_depth` not incremented — and the
`continue_search` route loops back to query generation, so such an
iteration does not advance toward the `max_depth` cap. -/
theorem analyze_and_reflect_skip_empty
    (co : AgentState → Reflection)
    (eo : EntityDict → String → EntityMergeOutput)
    (s : AgentState) (h : s.search_memory = []) :
    analyze_and_reflect co eo s = s ∧
    nextNode WorkflowNode.analyze_and_reflect "continue_search"
      = some WorkflowNode.generate_queries := by
  constructor
  · unfold analyze_and_reflect
    simp [h]
  · rfl

theorem analyze_and_reflect_skip_empty_witness :
    analyze_and_reflect (fun _ => reflSubstantive) constEntityOracle
        initialState = initialState ∧
    nextNode WorkflowNode.analyze_and_reflect "continue_search"
      = some WorkflowNode.generate_queries :=
  analyze_and_reflect_skip_empty (fun _ => reflSubstantive)
    constEntityOracle initialState rfl

/-! ## C6: finalize always passes through connection mapping -/

/-- Claim C6: The only edge into `synthesize_report` comes from
`map_connections`, the `finalize` route out of `analyze_and_reflect` leads
to `map_connections` whose outgoing edge is `synthesize_report` — so every
terminating run executes connection-mapping before synthesis regardless of
which termination criterion fired — and in particular a run whose first
(depth-0) reflection recommended stopping takes exactly that finalize
route. -/
theorem finalize_passes_map_connections (n : Int) (s : AgentState) :
    (∀ (node : WorkflowNode) (route : String),
      nextNode node route = some WorkflowNode.synthesize_report →
      node = WorkflowNode.map_connections) ∧
    ((should_continue_research n s).1 = "finalize" →
      nextNode WorkflowNode.analyze_and_reflect
          (should_continue_research n s).1
        = some WorkflowNode.map_connections ∧
      ∀ route, nextNode WorkflowNode.map_connections route
        = some WorkflowNode.synthesize_report) ∧
    (s.current_depth < s.max_depth →
      ∀ r, s.reflection_memory.getLast? = some r →
        r.should_continue.getD true = false →
        should_continue_research n s =
          ("finalize",
            { s with
              termination_reason := some "reflection_recommended_stop" })) := by
  refine ⟨?_, ?_, ?_⟩
  · intro node route h
    cases node with
    | initializeNode => simp [nextNode] at h
    | generate_queries => simp [nextNode] at h
    | execute_search => simp [nextNode] at h
    | analyze_and_reflect =>
        simp only [nextNode] at h
        split at h
        · simp at h
        · split at h
          · simp at h
          · simp at h
    | map_connections => rfl
    | synthesize_report => simp [nextNode] at h
    | END => simp [nextNode] at h
  · intro hfin
    rw [hfin]
    exact ⟨rfl, fun _ => rfl⟩
  · intro hdepth r hlast hstop
    have hnd : ¬ s.current_depth ≥ s.max_depth := by omega
    unfold should_continue_research
    simp [hnd, hlast, hstop]

theorem finalize_passes_map_connections_witness :
    nextNode WorkflowNode.analyze_and_reflect
        (should_continue_research 2 scenarioBState).1
      = some WorkflowNode.map_connections ∧
    nextNode WorkflowNode.map_connections
        (should_continue_research 2 scenarioBState).1
      = some WorkflowNode.synthesize_report ∧
    should_continue_research 2 scenarioBState =
      ("finalize", { scenarioBState with
        termination_reason := some "reflection_recommended_stop" }) :=
  ⟨((finalize_passes_map_connections 2 scenarioBState).2.1 (by decide)).1,
   ((finalize_passes_map_connections 2 scenarioBState).2.1 (by decide)).2 _,
   (finalize_passes_map_connections 2 scenarioBState).2.2 (by decide)
     reflStop (by decide) (by decide)⟩

/-! ## C4: the zero-queries secondary check is never wired into the graph -/

/-- Claim C4 (code bug): The routing function `has_new_queries` does implement the
claimed secondary check (zero pending queries ↦ route `"synthesize"` with
`termination_reason = "no_additional_queries"`), but `_add_workflow_edges`
wires `generate_queries → execute_search` unconditionally and never
references `has_new_queries`: after a query-generation stage yielding zero
queries, the workflow executes the empty search batch (a no-op returning
the state unchanged) and `no_additional_queries` is never set. -/
theorem secondary_query_check_unwired :
    (∀ route, nextNode WorkflowNode.generate_queries route
      = some WorkflowNode.execute_search) ∧
    (∀ (search : String → Except String WebSearchOutput) (maxq : Nat),
      execute_web_search search maxq emptyQueriesState = emptyQueriesState) ∧
    (execute_web_search scenarioDSearch 5 emptyQueriesState).termination_reason
      = none ∧
    has_new_queries emptyQueriesState =
      ("synthesize", { emptyQueriesState with
        termination_reason := some "no_additional_queries" }) := by
  refine ⟨fun _ => rfl, ?_, ?_, ?_⟩
  · intro search maxq
    unfold execute_web_search
    simp [emptyQueriesState, initialState]
  · rfl
  · rfl

/-! ## C1: failure handling in the search batch -/

/-- Claim C1, counterexample: Scenario D input: 5 queries where only query
#3 fails (every other query succeeds).  Because `parallel_search` awaits
`asyncio.gather` without `return_exceptions=True`, the exception propagates
past the batch boundary: the caller receives no result list at all, and
`execute_web_search` stores 0 (not 4) result slots — `search_memory` gains
nothing, `search_count` stays 0, and one batch-level error is recorded. -/
theorem parallel_search_no_slot_isolation :
    (["q1", "q2", "q4", "q5"].all fun q => (scenarioDSearch q).isOk) = true ∧
    parallel_search scenarioDSearch scenarioDQueries
      = Except.error "transient search failure" ∧
    (execute_web_search scenarioDSearch 5 scenarioDState).search_memory = [] ∧
    (execute_web_search scenarioDSearch 5 scenarioDState).search_count = 0 ∧
    (execute_web_search scenarioDSearch 5 scenarioDState).error_count = 1 ∧
    (execute_web_search scenarioDSearch 5 scenarioDState).search_iterations
      = [{ initialIterationData 0 scenarioDQueries with
            errors := ["transient search failure"] }] := by
  refine ⟨rfl, rfl, ?_, ?_, ?_, ?_⟩ <;> rfl

/-- Claim C1, amended: A single query's failure is caught only at the batch
boundary: when any query of the executed batch makes `parallel_search`
raise, `execute_web_search` loses the entire batch's results — no search
memory entry is stored for any query, `queries_executed`, `pending_queries`
and `search_count` are untouched — but the session survives the failure:
the function still returns, the error is recorded once in the iteration
audit record and `error_count` is incremented. -/
theorem execute_web_search_batch_failure
    (search : String → Except String WebSearchOutput)
    (maxq : Nat) (s : AgentState) (e : String)
    (hq : s.pending_queries.isEmpty = false)
    (herr : parallel_search search (s.pending_queries.take maxq)
      = Except.error e) :
    execute_web_search search maxq s =
      { s with
        error_count := s.error_count + 1
        search_iterations := s.search_iterations ++
          [{ initialIterationData s.current_depth (s.pending_queries.take maxq)
              with errors := [e] }] } := by
  unfold execute_web_search
  simp [hq, herr]

theorem execute_web_search_batch_failure_witness :
    scenarioDState.pending_queries.isEmpty = false ∧
    execute_web_search scenarioDSearch 5 scenarioDState =
      { scenarioDState with
        error_count := scenarioDState.error_count + 1
        search_iterations := scenarioDState.search_iterations ++
          [{ initialIterationData scenarioDState.current_depth
              (scenarioDState.pending_queries.take 5) with
              errors := ["transient search failure"] }] } :=
  ⟨rfl, execute_web_search_batch_failure scenarioDSearch 5 scenarioDState
    "transient search failure" rfl rfl⟩

/-! ## C8: dangling edges in the graph merge -/

/-- Claim C8, counterexample: A merge input containing an edge whose target
id is absent from both the existing graph and the new-node set, together
with a collaborator response that simply omits that edge: the function
returns exactly the old node set with no placeholder node, no rejected-edge
record and no trace of any decision — the `nodes_added`/`edges_added`
counters of the LLM output are discarded and the graph is the complete
return value. -/
theorem merge_graph_silent_drop :
    merge_graph_with_llm droppingOracle
        (some { nodes := [nodeA], edges := [] }) [] [danglingEdge]
      = { nodes := [nodeA], edges := [] } ∧
    (merge_graph_with_llm droppingOracle
        (some { nodes := [nodeA], edges := [] }) [] [danglingEdge]).edges
      = [] ∧
    ((merge_graph_with_llm droppingOracle
        (some { nodes := [nodeA], edges := [] }) [] [danglingEdge]).nodes.all
      fun node => node.id ≠ "ghost holdings") = true := by
  refine ⟨?_, ?_, ?_⟩ <;> rfl

/-- Claim C8, amended: `merge_graph_with_llm` delegates the handling of
edges with unknown endpoints entirely to the LLM collaborator: the function
always returns either the (normalized) existing graph or verbatim the graph
the collaborator responded with, and in no branch does the code itself
synthesize a placeholder node or record a rejection — whether a dangling
edge is kept, repaired or silently dropped is decided by the collaborator,
not by the code. -/
theorem merge_graph_forwards_oracle
    (oracle : EntityGraph → List GraphNode → List GraphEdge → GraphMergeOutput)
    (existing_graph : Option EntityGraph)
    (new_nodes : List GraphNode) (new_edges : List GraphEdge) :
    merge_graph_with_llm oracle existing_graph new_nodes new_edges
        = existing_graph.getD EntityGraph.empty ∨
    merge_graph_with_llm oracle existing_graph new_nodes new_edges
        = (oracle (existing_graph.getD EntityGraph.empty) new_nodes
            new_edges).merged_graph.getD
          (existing_graph.getD EntityGraph.empty) := by
  unfold merge_graph_with_llm
  by_cases hempty : new_nodes.isEmpty && new_edges.isEmpty
  · left
    simp [hempty]
  · cases horacle : (oracle (existing_graph.getD EntityGraph.empty) new_nodes
      new_edges).merged_graph with
    | none => left; simp [hempty, horacle]
    | some merged => right; simp [hempty, horacle]

/-! ## C9: idempotence of the entity merge -/

/-- Claim C9, counterexample: The entity merge is not idempotent: the code
returns whatever mapping the LLM collaborator responds with, so a
collaborator that invents a fresh key on each call makes the second
application of the same batch differ from the first — the code contains no
guard against duplicate records or double counting. -/
theorem merge_entities_not_idempotent :
    merge_entities_with_llm duplicatingOracle
        (merge_entities_with_llm duplicatingOracle [] "new findings")
        "new findings"
      ≠ merge_entities_with_llm duplicatingOracle [] "new findings" := by
  decide

/-- Evaluation of the non-trivial branch of `merge_entities_with_llm`: for
a non-empty summary the result is the collaborator's mapping, falling back
to the input mapping when that response is empty (falsy),
`research_utils.py` line 156. -/
theorem merge_entities_eval
    (oracle : EntityDict → String → EntityMergeOutput)
    (existing_entities : EntityDict) (analysis_summary : String)
    (hs : analysis_summary.isEmpty = false) :
    merge_entities_with_llm oracle existing_entities analysis_summary =
      if (oracle existing_entities analysis_summary).merged_entities.isEmpty
      then existing_entities
      else (oracle existing_entities analysis_summary).merged_entities := by
  unfold merge_entities_with_llm
  simp [hs]

/-- Claim C9, amended: the code does not itself guarantee idempotence of
the entity merge.  For an empty analysis summary the mapping is returned
unchanged, so the merge is trivially idempotent there; for a non-empty
summary, applying the merge twice with the same batch yields the same
mapping as applying it once exactly when the collaborator's response on the
once-merged mapping either is empty (falsy — the code then falls back to
the once-merged mapping) or reproduces the once-merged mapping (as any
constant response does).  Outside those cases — e.g. a collaborator that
invents a fresh record on each call — duplicate records are created and the
code has no guard against them. -/
theorem merge_entities_idempotent_characterization
    (oracle : EntityDict → String → EntityMergeOutput)
    (existing_entities : EntityDict) (analysis_summary : String) :
    (analysis_summary.isEmpty = true →
      merge_entities_with_llm oracle
          (merge_entities_with_llm oracle existing_entities analysis_summary)
          analysis_summary
        = merge_entities_with_llm oracle existing_entities analysis_summary) ∧
    (analysis_summary.isEmpty = false →
      (merge_entities_with_llm oracle
          (merge_entities_with_llm oracle existing_entities analysis_summary)
          analysis_summary
        = merge_entities_with_llm oracle existing_entities analysis_summary
      ↔ ((oracle (merge_entities_with_llm oracle existing_entities
            analysis_summary) analysis_summary).merged_entities.isEmpty = true
        ∨ (oracle (merge_entities_with_llm oracle existing_entities
            analysis_summary) analysis_summary).merged_entities
          = merge_entities_with_llm oracle existing_entities
              analysis_summary))) := by
  constructor
  · intro hs
    unfold merge_entities_with_llm
    simp [hs]
  · intro hs
    rw [merge_entities_eval oracle
      (merge_entities_with_llm oracle existing_entities analysis_summary)
      analysis_summary hs]
    by_cases hout : (oracle (merge_entities_with_llm oracle existing_entities
        analysis_summary) analysis_summary).merged_entities.isEmpty
    · simp [hout]
    · simp [hout]

theorem merge_entities_idempotent_characterization_witness :
    merge_entities_with_llm constEntityOracle
        (merge_entities_with_llm constEntityOracle [] "") ""
      = merge_entities_with_llm constEntityOracle [] "" ∧
    merge_entities_with_llm constEntityOracle
        (merge_entities_with_llm constEntityOracle [] "analysis text")
        "analysis text"
      = merge_entities_with_llm constEntityOracle [] "analysis text" :=
  ⟨(merge_entities_idempotent_characterization constEntityOracle [] "").1
      rfl,
   ((merge_entities_idempotent_characterization constEntityOracle []
      "analysis text").2 rfl).mpr (Or.inr rfl)⟩

/-! ## C7: semaphore bound and positional alignment of the executor -/

theorem runningCount_nil : runningCount [] = 0 := rfl

theorem runningCount_cons (a : TaskStatus) (t : ExecConfig) :
    runningCount (a :: t)
      = (if a.isRunning then 1 else 0) + runningCount t := by
  cases h : a.isRunning
  · simp [runningCount, List.filter_cons, h]
  · simp [runningCount, List.filter_cons, h]
    omega

/-- Overwriting slot `i` (which holds `w`) with `v` shifts the number of
running tasks by the difference of their running flags. -/
theorem runningCount_set (cfg : ExecConfig) (i : Nat) (v w : TaskStatus)
    (h : cfg[i]? = some w) :
    runningCount (cfg.set i v) + (if w.isRunning then 1 else 0)
      = runningCount cfg + (if v.isRunning then 1 else 0) := by
  induction cfg generalizing i with
  | nil => simp at h
  | cons a t ih =>
    cases i with
    | zero =>
        simp only [List.getElem?_cons_zero, Option.some.injEq] at h
        subst h
        simp only [List.set_cons_zero, runningCount_cons]
        cases hv : v.isRunning <;> cases ha : a.isRunning <;>
          simp [hv, ha] <;> omega
    | succ j =>
        simp only [List.getElem?_cons_succ] at h
        simp only [List.set_cons_succ, runningCount_cons]
        have := ih j h
        cases ha : a.isRunning <;> simp <;> omega

/-- Entering the semaphore adds one running task. -/
theorem runningCount_set_start (cfg : ExecConfig) (i : Nat)
    (h : cfg[i]? = some TaskStatus.notStarted) :
    runningCount (cfg.set i TaskStatus.running) = runningCount cfg + 1 := by
  have hswap := runningCount_set cfg i TaskStatus.running
    TaskStatus.notStarted h
  simpa [TaskStatus.isRunning] using hswap

/-- Leaving the semaphore removes one running task. -/
theorem runningCount_set_finish (cfg : ExecConfig) (i : Nat)
    (r : WebSearchOutput) (h : cfg[i]? = some TaskStatus.running) :
    runningCount (cfg.set i (TaskStatus.done r)) + 1 = runningCount cfg := by
  have hswap := runningCount_set cfg i (TaskStatus.done r)
    TaskStatus.running h
  simpa [TaskStatus.isRunning] using hswap

theorem runningCount_all_notStarted (queries : List String) :
    runningCount (queries.map (fun _ => TaskStatus.notStarted)) = 0 := by
  induction queries with
  | nil => rfl
  | cons q t ih =>
      simp only [List.map_cons, runningCount_cons, TaskStatus.isRunning]
      simpa using ih

/-- The executor invariant holds in every reachable configuration. -/
theorem execReachable_inv {C : Nat} {search : String → WebSearchOutput}
    {queries : List String} {cfg : ExecConfig}
    (h : ExecReachable C search queries cfg) :
    ExecInv C search queries cfg := by
  induction h with
  | init =>
      refine ⟨by simp, ?_, ?_⟩
      · rw [runningCount_all_notStarted]
        exact Nat.zero_le C
      · intro i r hir
        rw [List.getElem?_map] at hir
        cases hq : queries[i]? with
        | none => rw [hq] at hir; simp at hir
        | some q => rw [hq] at hir; simp at hir
  | @step cfg cfg2 hreach hstep ih =>
      obtain ⟨hlen, hrun, hdone⟩ := ih
      cases hstep with
      | acquire i hstat hsem =>
          refine ⟨by simpa using hlen, ?_, ?_⟩
          · have hswap := runningCount_set_start cfg i hstat
            omega
          · intro j r hj
            rw [List.getElem?_set] at hj
            by_cases hij : i = j
            · subst hij
              have hlt : i < cfg.length := by
                by_contra hge
                rw [List.getElem?_eq_none (by omega)] at hstat
                exact Option.noConfusion hstat
              simp [hlt] at hj
            · simp [hij] at hj
              exact hdone j r hj
      | complete i hstat =>
          refine ⟨by simpa using hlen, ?_, ?_⟩
          · have hswap := runningCount_set_finish cfg i
              (search (queries.getD i "")) hstat
            omega
          · intro j r hj
            rw [List.getElem?_set] at hj
            by_cases hij : i = j
            · subst hij
              have hlt : i < cfg.length := by
                by_contra hge
                rw [List.getElem?_eq_none (by omega)] at hstat
                exact Option.noConfusion hstat
              simp [hlt] at hj
              rw [List.getD_eq_getElem?_getD]
              exact hj.symm
            · simp [hij] at hj
              exact hdone j r hj

/-- Once every task is done, the assembled result list is pointwise the
collaborator's answer to the query in the same position. -/
theorem gatherResults_aligned (cfg : ExecConfig) (queries : List String)
    (search : String → WebSearchOutput)
    (hlen : cfg.length = queries.length)
    (hdone : ∀ i r, cfg[i]? = some (TaskStatus.done r) →
      r = search (queries.getD i ""))
    (results : List WebSearchOutput)
    (hg : gatherResults cfg = some results) :
    results = queries.map search := by
  induction cfg generalizing queries results with
  | nil =>
      cases queries with
      | nil =>
          simp only [gatherResults, Option.some.injEq] at hg
          simp [← hg]
      | cons q qs => simp at hlen
  | cons t rest ih =>
      cases queries with
      | nil => simp at hlen
      | cons q qs =>
          cases t with
          | notStarted => simp [gatherResults] at hg
          | running => simp [gatherResults] at hg
          | done r =>
              simp only [gatherResults, Option.map_eq_some'] at hg
              obtain ⟨rs, hrs, hres⟩ := hg
              have hr : r = search q := by
                have := hdone 0 r (by simp)
                simpa using this
              have hrest : rs = qs.map search := by
                refine ih qs (by simpa using hlen) ?_ rs hrs
                intro i r' h'
                have := hdone (i + 1) r' (by simpa using h')
                simpa using this
              simp [← hres, hr, hrest]

/-- Claim C7: For every concurrency cap `C`, collaborator behaviour and query
list, every configuration of the semaphore-bounded executor reachable under
any scheduling has at most `C` searches in flight, and whenever all tasks
have completed, the gathered result list associates result `i` with query
`i` — regardless of the order in which the individual searches completed. -/
theorem bounded_executor_contract (C : Nat)
    (search : String → WebSearchOutput) (queries : List String)
    (cfg : ExecConfig) (h : ExecReachable C search queries cfg) :
    runningCount cfg ≤ C ∧
    ∀ results, gatherResults cfg = some results →
      results = queries.map search := by
  obtain ⟨hlen, hrun, hdone⟩ := execReachable_inv h
  exact ⟨hrun, fun results hg =>
    gatherResults_aligned cfg queries search hlen hdone results hg⟩

theorem bounded_executor_contract_witness :
    runningCount
        [TaskStatus.done (searchW "alpha"), TaskStatus.done (searchW "beta")]
      ≤ 1 ∧
    [searchW "alpha", searchW "beta"] = ["alpha", "beta"].map searchW := by
  have h0 : ExecReachable 1 searchW ["alpha", "beta"]
      [TaskStatus.notStarted, TaskStatus.notStarted] :=
    ExecReachable.init
  have h1 : ExecReachable 1 searchW ["alpha", "beta"]
      [TaskStatus.running, TaskStatus.notStarted] :=
    ExecReachable.step h0
      (ExecStep.acquire [TaskStatus.notStarted, TaskStatus.notStarted] 0
        rfl (by decide))
  have h2 : ExecReachable 1 searchW ["alpha", "beta"]
      [TaskStatus.done (searchW "alpha"), TaskStatus.notStarted] :=
    ExecReachable.step h1
      (ExecStep.complete [TaskStatus.running, TaskStatus.notStarted] 0 rfl)
  have h3 : ExecReachable 1 searchW ["alpha", "beta"]
      [TaskStatus.done (searchW "alpha"), TaskStatus.running] :=
    ExecReachable.step h2
      (ExecStep.acquire
        [TaskStatus.done (searchW "alpha"), TaskStatus.notStarted] 1
        rfl (by decide))
  have h4 : ExecReachable 1 searchW ["alpha", "beta"]
      [TaskStatus.done (searchW "alpha"), TaskStatus.done (searchW "beta")] :=
    ExecReachable.step h3
      (ExecStep.complete
        [TaskStatus.done (searchW "alpha"), TaskStatus.running] 1 rfl)
  have hmain := bounded_executor_contract 1 searchW ["alpha", "beta"] _ h4
  exact ⟨hmain.1, hmain.2 [searchW "alpha", searchW "beta"] rfl⟩

end DeepAgents
